import Mathlib

/-!
Verification development for the aztec-typescript-experiments repository.

This file shallowly embeds the pieces of the repository that the
specification talks about:

* the contract `Main` in `contract/src/main.nr` (storage layout and its
  four public entry points plus the one-time constructor);
* the orchestration code in `src/server.ts` (`ensurePXEReady`,
  `deployContractWithRetry`, `startWebSocketServer`, the message handler
  of the bridge, the module tail that sequences them, and the URL
  configuration in `setupSandbox`).

Effectful TypeScript code is embedded as pure functions over an explicit
environment (the outcomes the outside world hands to each network call)
that additionally produce a trace of observable events (probes, pauses,
log lines, deploy attempts, stores, binds and listens).  A loop that would
run forever on a given environment list is totalised with `Option`: the
result `none` means the code is still running when the supplied
environment is exhausted; it never denotes a surfaced error, matching the
source in which these loops cannot reject.
-/

/-! ## Contract `Main` (contract/src/main.nr)

Noir `Field` for Aztec contracts is the scalar field of BN254. -/

def aztecFieldSize : Nat :=
  21888242871839275222246405745257275088548364400416034343698204186575808495617

abbrev Fp : Type := ZMod aztecFieldSize

/-- Storage of the `Main` contract: a `Map<Field, PublicMutable<Field>>`
and a `PublicMutable<Field>` scalar slot. -/
structure MainStorage where
  field_in_map : Fp → Fp
  just_field : Fp

/-- `constructor`: `storage.field_in_map.at(1).write(1); storage.just_field.write(700)`. -/
def Main.constructor (s : MainStorage) : MainStorage :=
  { s with
    field_in_map := Function.update s.field_in_map 1 1
    just_field := 700 }

/-- `set_just_field(value)`: `storage.just_field.write(value)`. -/
def Main.set_just_field (value : Fp) (s : MainStorage) : MainStorage :=
  { s with just_field := value }

/-- `get_just_field()` (a `#[view]` function): `storage.just_field.read()`.
Returned together with the storage it leaves behind. -/
def Main.get_just_field (s : MainStorage) : Fp × MainStorage :=
  (s.just_field, s)

/-- `set_field_in_map(key, value)`: `storage.field_in_map.at(key).write(value)`. -/
def Main.set_field_in_map (key value : Fp) (s : MainStorage) : MainStorage :=
  { s with field_in_map := Function.update s.field_in_map key value }

/-- `read_field_in_map(key)` (a `#[view]` function):
`storage.field_in_map.at(key).read()`. -/
def Main.read_field_in_map (key : Fp) (s : MainStorage) : Fp × MainStorage :=
  (s.field_in_map key, s)

/-! ## URL configuration (src/server.ts, `setupSandbox` and `ensurePXEReady`) -/

/-- Default used by `const { PXE_URL = 'http://localhost:8080' } = process.env`. -/
def defaultPxeUrl : String := "http://localhost:8080"

/-- The base URL `setupSandbox` passes to `createPXEClient`:
the `PXE_URL` environment variable when set, the default otherwise. -/
def setupSandboxUrl (pxeUrlEnv : Option String) : String :=
  pxeUrlEnv.getD defaultPxeUrl

/-- The URL `ensurePXEReady` fetches each probe: the string literal
`"http://localhost:8080/status"` in the source, independent of the
environment. -/
def proberStatusUrl (_pxeUrlEnv : Option String) : String :=
  "http://localhost:8080/status"

/-! ## Observable events of the orchestration (src/server.ts) -/

/-- Opaque handle pair returned by `deployContract`:
`{ contract: mainContract, wallet }`. -/
structure DeploymentResult where
  contract : Nat
  wallet : Nat
deriving DecidableEq, Repr

/-- One observable step of the server code. -/
inductive Event where
  /-- `fetch(url)` issued by `ensurePXEReady`. -/
  | probe (url : String)
  /-- `await new Promise(resolve => setTimeout(resolve, ms))`. -/
  | pause (ms : Nat)
  /-- One call of `deployContract`; `ok` records whether it resolved. -/
  | deployAttempt (ok : Bool)
  /-- `console.error` of the deployment failure in `deployContractWithRetry`. -/
  | logDeployError
  /-- The assignments `contractInstance = contract; walletInstance = wallet`. -/
  | store (r : DeploymentResult)
  /-- `new WebSocketServer(\x7b port \x7d)` attempted on this port. -/
  | bindAttempt (port : Nat)
  /-- `console.error` of the port-in-use message before retrying. -/
  | logPortInUse (port : Nat)
  /-- `console.error("❌ Unexpected error in WebSocket server:", error)`. -/
  | logUnexpectedBindError
  /-- The server is up: the `console.log` that reports the bound port. -/
  | listen (port : Nat)
deriving DecidableEq, Repr

/-! ## `ensurePXEReady` (src/server.ts lines 66-81)

The environment is the list of outcomes of successive `fetch` calls. -/

/-- Outcome of one `fetch("http://localhost:8080/status")`. -/
inductive ProbeOutcome where
  /-- The fetch threw a transport error (caught by the `catch`). -/
  | thrown
  /-- A response arrived whose `statusText` is this string. -/
  | status (text : String)
deriving DecidableEq, Repr

/-- Whether this probe outcome makes `ensurePXEReady` return:
a response whose status text is exactly `"OK"`. -/
def ProbeOutcome.ready : ProbeOutcome → Bool
  | .thrown => false
  | .status t => t = "OK"

/-- `ensurePXEReady`: loop: fetch the status URL; if a response arrived and
`response.statusText === "OK"`, return; otherwise (non-"OK" status text, or
a thrown transport error) sleep 5000 ms and loop.  `none` means the loop is
still running when the environment list runs out. -/
def ensurePXEReady : List ProbeOutcome → Option (List Event)
  | [] => none
  | o :: rest =>
    if o.ready then
      some [.probe (proberStatusUrl none)]
    else
      (ensurePXEReady rest).map
        (fun tr => .probe (proberStatusUrl none) :: .pause 5000 :: tr)

/-! ## `deployContractWithRetry` (src/server.ts lines 83-95)

The environment is one entry per attempt of the recursion: the probe
outcomes handed to that attempt's `ensurePXEReady` call, and `some r` when
that attempt's `deployContract` resolves with `r`, `none` when it rejects. -/

def deployContractWithRetry :
    List (List ProbeOutcome × Option DeploymentResult) →
      Option (List Event × DeploymentResult)
  | [] => none
  | (penv, out) :: rest =>
    match ensurePXEReady penv with
    | none => none
    | some ptr =>
      match out with
      | some r => some (ptr ++ [.deployAttempt true], r)
      | none =>
        (deployContractWithRetry rest).map
          (fun (tr, r) =>
            (ptr ++ .deployAttempt false :: .logDeployError :: .pause 10000 :: tr, r))

/-! ## `startWebSocketServer` (src/server.ts lines 34-61)

The environment is the list of outcomes of successive
`new WebSocketServer(\x7b port \x7d)` constructions. -/

/-- Outcome of one socket bind. -/
inductive BindResult where
  | ok
  | addrInUse
  | otherError
deriving DecidableEq, Repr

/-- Terminal state of `startWebSocketServer`: listening on some port, or
halted after a non-`EADDRINUSE` error (the `else` branch only logs; it
neither retries nor rethrows, so the function still returns normally). -/
inductive ServerOutcome where
  | listening (port : Nat)
  | halted
deriving DecidableEq, Repr

/-- Default of the `port = 3002` parameter of `startWebSocketServer`. -/
def defaultBridgePort : Nat := 3002

/-- `startWebSocketServer(port)`: try to bind; on success log the running
server; on `EADDRINUSE` log and recurse on `port + 1`; on any other error
log it and fall through (halt). -/
def startWebSocketServer : List BindResult → Nat → Option (List Event × ServerOutcome)
  | [], _ => none
  | .ok :: _, port => some ([.bindAttempt port, .listen port], .listening port)
  | .addrInUse :: rest, port =>
    (startWebSocketServer rest (port + 1)).map
      (fun (tr, o) => (.bindAttempt port :: .logPortInUse port :: tr, o))
  | .otherError :: _, port =>
    some ([.bindAttempt port, .logUnexpectedBindError], .halted)

/-! ## The bridge message handler (src/server.ts lines 41-44) -/

/-- An inbound WebSocket message: text or a binary payload. -/
inductive BridgeMessage where
  | text (s : String)
  | binary (bytes : List Nat)
deriving DecidableEq, Repr

/-- `message.toString()` as used by the log line. -/
def BridgeMessage.toLogString : BridgeMessage → String
  | .text s => s
  | .binary bytes => String.intercalate "," (bytes.map toString)

/-- `JSON.stringify(\x7b success: true, message: "Test response from WebSocket server" \x7d)`. -/
def ackPayload : String :=
  "\x7b\"success\":true,\"message\":\"Test response from WebSocket server\"\x7d"

/-- The `ws.on('message', ...)` handler: log the raw message, then send the
fixed acknowledgement.  Returns (log line, payload sent). -/
def handleMessage (message : BridgeMessage) : String × String :=
  (message.toLogString, ackPayload)

/-! ## The orchestrating module tail (src/server.ts lines 97-101) -/

/-- The module-level slots `contractInstance` / `walletInstance`,
viewed as the spec's single process-wide DeploymentResult slot. -/
structure ProcState where
  contractInstance : Option Nat
  walletInstance : Option Nat
deriving DecidableEq, Repr

/-- `deployContractWithRetry().then((\x7b contract, wallet \x7d) => \x7b
contractInstance = contract; walletInstance = wallet;
startWebSocketServer(); \x7d)`. -/
def serverMain (denv : List (List ProbeOutcome × Option DeploymentResult))
    (benv : List BindResult) : Option (List Event × ProcState × ServerOutcome) :=
  match deployContractWithRetry denv with
  | none => none
  | some (tr, r) =>
    match startWebSocketServer benv defaultBridgePort with
    | none => none
    | some (btr, o) =>
      some (tr ++ .store r :: btr, ⟨some r.contract, some r.wallet⟩, o)

/-! ## Trace vocabulary and expected traces -/

def Event.isProbe : Event → Bool
  | .probe _ => true
  | _ => false

def Event.isPause (ms : Nat) : Event → Bool
  | .pause n => n = ms
  | _ => false

def Event.isDeployAttempt : Event → Bool
  | .deployAttempt _ => true
  | _ => false

def Event.isDeploySuccess : Event → Bool
  | .deployAttempt ok => ok
  | _ => false

def Event.isLogDeployError : Event → Bool
  | .logDeployError => true
  | _ => false

def Event.isStore : Event → Bool
  | .store _ => true
  | _ => false

def Event.isListen : Event → Bool
  | .listen _ => true
  | _ => false

/-- Number of events of a trace satisfying `p`. -/
def countEvent (p : Event → Bool) (tr : List Event) : Nat :=
  (tr.filter p).length

/-- `true` iff every `deployAttempt` of the trace is preceded by a probe
issued after the previous `deployAttempt` (the prober is re-invoked before
every deployer attempt).  The flag records whether a probe has happened
since the last deploy attempt. -/
def proberGatesDeploys : Bool → List Event → Bool
  | _, [] => true
  | _, Event.probe _ :: es => proberGatesDeploys true es
  | probed, Event.deployAttempt _ :: es => probed && proberGatesDeploys false es
  | probed, _ :: es => proberGatesDeploys probed es

/-- `true` iff every `listen` of the trace is preceded by an event
satisfying `p`. -/
def listenGated (p : Event → Bool) : Bool → List Event → Bool
  | _, [] => true
  | seen, Event.listen _ :: es => seen && listenGated p seen es
  | seen, e :: es => listenGated p (seen || p e) es

/-- Effect of one event on the process-wide DeploymentResult slot:
a `store` overwrites it, everything else leaves it alone. -/
def storeStep (s : Option DeploymentResult) : Event → Option DeploymentResult
  | .store r => some r
  | _ => s

/-- Value of the process-wide DeploymentResult slot after the writes a
trace records (last write wins, initially empty). -/
def slotState (tr : List Event) : Option DeploymentResult :=
  tr.foldl storeStep none

/-- A probe environment on which `ensurePXEReady` succeeds at once. -/
def okProbeEnv : List ProbeOutcome := [.status "OK"]

/-- Trace of one failed `deployContractWithRetry` attempt (prober environment
`okProbeEnv`): probe, failed deploy, error log, 10000 ms pause. -/
def failChunk : List Event :=
  [.probe (proberStatusUrl none), .deployAttempt false, .logDeployError, .pause 10000]

/-- Trace of the final successful attempt: probe, successful deploy. -/
def succChunk : List Event :=
  [.probe (proberStatusUrl none), .deployAttempt true]

/-- Environment with `n` deployer failures followed by one success `r`,
the backing service probing healthy before every attempt. -/
def retryEnv (n : Nat) (r : DeploymentResult) :
    List (List ProbeOutcome × Option DeploymentResult) :=
  List.replicate n (okProbeEnv, none) ++ [(okProbeEnv, some r)]

/-- Expected trace of `deployContractWithRetry` on `retryEnv n r`. -/
def retryTrace (n : Nat) : List Event :=
  (List.replicate n failChunk).flatten ++ succChunk

/-- Expected trace of `ensurePXEReady` when `m` probes fail before the
`"OK"` response: `m` probe/pause pairs then a final probe. -/
def proberFailTrace : Nat → List Event
  | 0 => [Event.probe (proberStatusUrl none)]
  | m + 1 => Event.probe (proberStatusUrl none) :: Event.pause 5000 :: proberFailTrace m

/-- Bind environment: `k` ports already in use, then a free one. -/
def bindEnvContention (k : Nat) : List BindResult :=
  List.replicate k .addrInUse ++ [.ok]

/-- Expected trace of `startWebSocketServer` on `bindEnvContention k`
starting from port `p`. -/
def bindTrace : Nat → Nat → List Event
  | p, 0 => [.bindAttempt p, .listen p]
  | p, k + 1 => .bindAttempt p :: .logPortInUse p :: bindTrace (p + 1) k

/-- Expected trace of the whole module tail on `retryEnv n r` with the
default bridge port free. -/
def fullTrace (n : Nat) (r : DeploymentResult) : List Event :=
  retryTrace n ++
    Event.store r :: [Event.bindAttempt defaultBridgePort, Event.listen defaultBridgePort]

/-! ## Helper lemmas -/

theorem countEvent_append (p : Event → Bool) (l₁ l₂ : List Event) :
    countEvent p (l₁ ++ l₂) = countEvent p l₁ + countEvent p l₂ := by
  simp [countEvent]

theorem retryTrace_succ (n : Nat) : retryTrace (n + 1) = failChunk ++ retryTrace n := by
  simp [retryTrace, List.replicate_succ]

theorem fullTrace_succ (n : Nat) (r : DeploymentResult) :
    fullTrace (n + 1) r = failChunk ++ fullTrace n r := by
  simp [fullTrace, retryTrace_succ]

theorem ensurePXEReady_okProbeEnv :
    ensurePXEReady okProbeEnv = some [Event.probe (proberStatusUrl none)] := by
  simp [ensurePXEReady, okProbeEnv, ProbeOutcome.ready]

theorem deployContractWithRetry_retryEnv (n : Nat) (r : DeploymentResult) :
    deployContractWithRetry (retryEnv n r) = some (retryTrace n, r) := by
  induction n with
  | zero =>
    simp [retryEnv, retryTrace, deployContractWithRetry, ensurePXEReady_okProbeEnv, succChunk]
  | succ n ih =>
    have h : retryEnv (n + 1) r = (okProbeEnv, none) :: retryEnv n r := by
      simp [retryEnv, List.replicate_succ]
    rw [h, retryTrace_succ]
    simp [deployContractWithRetry, ensurePXEReady_okProbeEnv, ih, failChunk]

theorem deployContractWithRetry_allFail (n : Nat) :
    deployContractWithRetry (List.replicate n (okProbeEnv, none)) = none := by
  induction n with
  | zero => rfl
  | succ n ih =>
    simp [List.replicate_succ, deployContractWithRetry, ensurePXEReady_okProbeEnv, ih]

theorem ensurePXEReady_firstOK :
    ∀ pre : List ProbeOutcome, (∀ o ∈ pre, o.ready = false) →
      ∀ rest : List ProbeOutcome,
        ensurePXEReady (pre ++ ProbeOutcome.status "OK" :: rest) =
          some (proberFailTrace pre.length) := by
  intro pre
  induction pre with
  | nil =>
    intro _ rest
    simp [ensurePXEReady, ProbeOutcome.ready, proberFailTrace]
  | cons o es ih =>
    intro h rest
    have ho : o.ready = false := h o (by simp)
    have ihe := ih (fun x hx => h x (by simp [hx])) rest
    simp [ensurePXEReady, ho, ihe, proberFailTrace]

theorem ensurePXEReady_neverReady :
    ∀ env : List ProbeOutcome, (∀ o ∈ env, o.ready = false) →
      ensurePXEReady env = none := by
  intro env
  induction env with
  | nil => intro _; rfl
  | cons o es ih =>
    intro h
    simp [ensurePXEReady, h o (by simp), ih (fun x hx => h x (by simp [hx]))]

theorem proberFailTrace_counts (m : Nat) :
    countEvent Event.isProbe (proberFailTrace m) = m + 1 ∧
    countEvent (Event.isPause 5000) (proberFailTrace m) = m := by
  induction m with
  | zero => exact ⟨rfl, rfl⟩
  | succ m ih =>
    obtain ⟨h1, h2⟩ := ih
    refine ⟨?_, ?_⟩ <;>
      simp_all [proberFailTrace, countEvent, Event.isProbe, Event.isPause]

theorem retryTrace_counts (n : Nat) :
    countEvent Event.isDeployAttempt (retryTrace n) = n + 1 ∧
    countEvent Event.isLogDeployError (retryTrace n) = n ∧
    countEvent (Event.isPause 10000) (retryTrace n) = n ∧
    countEvent Event.isProbe (retryTrace n) = n + 1 := by
  induction n with
  | zero => exact ⟨rfl, rfl, rfl, rfl⟩
  | succ n ih =>
    obtain ⟨h1, h2, h3, h4⟩ := ih
    rw [retryTrace_succ]
    refine ⟨?_, ?_, ?_, ?_⟩ <;>
      simp_all [countEvent_append, failChunk, countEvent, Event.isDeployAttempt,
        Event.isLogDeployError, Event.isPause, Event.isProbe]

theorem proberGatesDeploys_failChunk (s : Bool) (es : List Event) :
    proberGatesDeploys s (failChunk ++ es) = proberGatesDeploys false es := by
  simp [failChunk, proberGatesDeploys]

theorem proberGatesDeploys_retryTrace (n : Nat) :
    proberGatesDeploys false (retryTrace n) = true := by
  induction n with
  | zero => rfl
  | succ n ih => rw [retryTrace_succ, proberGatesDeploys_failChunk]; exact ih

theorem proberGatesDeploys_fullTrace (n : Nat) (r : DeploymentResult) :
    proberGatesDeploys false (fullTrace n r) = true := by
  induction n with
  | zero => simp [fullTrace, retryTrace, succChunk, proberGatesDeploys]
  | succ n ih => rw [fullTrace_succ, proberGatesDeploys_failChunk]; exact ih

theorem listenGatedStore_failChunk (s : Bool) (es : List Event) :
    listenGated Event.isStore s (failChunk ++ es) = listenGated Event.isStore s es := by
  simp [failChunk, listenGated, Event.isStore]

theorem listenGatedDeploy_failChunk (s : Bool) (es : List Event) :
    listenGated Event.isDeploySuccess s (failChunk ++ es) =
      listenGated Event.isDeploySuccess s es := by
  simp [failChunk, listenGated, Event.isDeploySuccess]

theorem listenGatedStore_fullTrace (n : Nat) (r : DeploymentResult) :
    listenGated Event.isStore false (fullTrace n r) = true := by
  induction n with
  | zero => simp [fullTrace, retryTrace, succChunk, listenGated, Event.isStore]
  | succ n ih => rw [fullTrace_succ, listenGatedStore_failChunk]; exact ih

theorem listenGatedDeploy_fullTrace (n : Nat) (r : DeploymentResult) :
    listenGated Event.isDeploySuccess false (fullTrace n r) = true := by
  induction n with
  | zero => simp [fullTrace, retryTrace, succChunk, listenGated, Event.isDeploySuccess]
  | succ n ih => rw [fullTrace_succ, listenGatedDeploy_failChunk]; exact ih

theorem startWebSocketServer_contention (k : Nat) :
    ∀ p : Nat, startWebSocketServer (bindEnvContention k) p =
      some (bindTrace p k, ServerOutcome.listening (p + k)) := by
  induction k with
  | zero => intro p; simp [bindEnvContention, startWebSocketServer, bindTrace]
  | succ k ih =>
    intro p
    have h : bindEnvContention (k + 1) = BindResult.addrInUse :: bindEnvContention k := by
      simp [bindEnvContention, List.replicate_succ]
    rw [h]
    have harith : p + 1 + k = p + (k + 1) := by omega
    simp [startWebSocketServer, ih (p + 1), bindTrace, harith]

theorem fullTrace_filter_store (n : Nat) (r : DeploymentResult) :
    (fullTrace n r).filter Event.isStore = [Event.store r] := by
  induction n with
  | zero =>
    simp [fullTrace, retryTrace, succChunk, Event.isStore, List.filter]
  | succ n ih =>
    rw [fullTrace_succ]
    simp only [List.filter_append]
    rw [ih]
    simp [failChunk, Event.isStore, List.filter]

theorem fullTrace_store_unique (n : Nat) (r : DeploymentResult) :
    ∀ e ∈ fullTrace n r, Event.isStore e = true → e = Event.store r := by
  intro e he hstore
  have hmem : e ∈ (fullTrace n r).filter Event.isStore :=
    List.mem_filter.mpr ⟨he, hstore⟩
  rw [fullTrace_filter_store] at hmem
  simpa using hmem

theorem storeStep_foldl_none_or (r : DeploymentResult) :
    ∀ (l : List Event) (s : Option DeploymentResult),
      (s = none ∨ s = some r) →
      (∀ e ∈ l, Event.isStore e = true → e = Event.store r) →
      (l.foldl storeStep s = none ∨ l.foldl storeStep s = some r) := by
  intro l
  induction l with
  | nil => intro s hs _; simpa using hs
  | cons e es ih =>
    intro s hs hmem
    have htail : ∀ x ∈ es, Event.isStore x = true → x = Event.store r :=
      fun x hx => hmem x (List.mem_cons_of_mem _ hx)
    rw [List.foldl_cons]
    cases e with
    | store v =>
      have hv : Event.store v = Event.store r :=
        hmem _ (List.mem_cons_self _ _) (by simp [Event.isStore])
      have : v = r := by injection hv
      subst this
      exact ih (some v) (Or.inr rfl) htail
    | probe u => exact ih s (by simpa [storeStep] using hs) htail
    | pause ms => exact ih s (by simpa [storeStep] using hs) htail
    | deployAttempt ok => exact ih s (by simpa [storeStep] using hs) htail
    | logDeployError => exact ih s (by simpa [storeStep] using hs) htail
    | bindAttempt p => exact ih s (by simpa [storeStep] using hs) htail
    | logPortInUse p => exact ih s (by simpa [storeStep] using hs) htail
    | logUnexpectedBindError => exact ih s (by simpa [storeStep] using hs) htail
    | listen p => exact ih s (by simpa [storeStep] using hs) htail

theorem retryTrace_no_store (n : Nat) :
    (retryTrace n).filter Event.isStore = [] := by
  induction n with
  | zero => rfl
  | succ n ih =>
    rw [retryTrace_succ]
    simp only [List.filter_append, ih]
    simp [failChunk, Event.isStore, List.filter]

theorem storeStep_foldl_no_store :
    ∀ (l : List Event) (s : Option DeploymentResult),
      l.filter Event.isStore = [] → l.foldl storeStep s = s := by
  intro l
  induction l with
  | nil => intro s _; rfl
  | cons e es ih =>
    intro s h
    rw [List.filter_cons] at h
    by_cases hse : Event.isStore e = true
    · simp [hse] at h
    · have hes : es.filter Event.isStore = [] := by
        simpa [hse] using h
      rw [List.foldl_cons]
      have hstep : storeStep s e = s := by
        cases e <;> simp_all [storeStep, Event.isStore]
      rw [hstep]
      exact ih s hes

theorem slotState_fullTrace (n : Nat) (r : DeploymentResult) :
    slotState (fullTrace n r) = some r := by
  unfold slotState fullTrace
  rw [List.foldl_append, storeStep_foldl_no_store (retryTrace n) none (retryTrace_no_store n)]
  rfl

theorem ensurePXEReady_probe_url :
    ∀ (penv : List ProbeOutcome) (tr : List Event), ensurePXEReady penv = some tr →
      ∀ ev ∈ tr, Event.isProbe ev = true → ev = Event.probe (defaultPxeUrl ++ "/status") := by
  intro penv
  induction penv with
  | nil => intro tr h; simp [ensurePXEReady] at h
  | cons o es ih =>
    intro tr h ev hev hprobe
    by_cases ho : o.ready = true
    · simp [ensurePXEReady, ho] at h
      subst h
      simp at hev
      subst hev
      decide
    · simp [ensurePXEReady, ho, Option.map_eq_some'] at h
      obtain ⟨tr2, h2, rfl⟩ := h
      simp at hev
      rcases hev with rfl | rfl | hev
      · decide
      · simp [Event.isProbe] at hprobe
      · exact ih tr2 h2 ev hev hprobe

/-! ## Claim theorems -/

/-- C1: for every sequence of `n` Deployer failures followed by one success,
`deployContractWithRetry` returns the successful DeploymentResult; the trace
holds `n + 1` deploy attempts, `n` error logs and `n` 10000 ms pauses, with
a fresh Prober run before every Deployer attempt; and when every attempt of
the environment fails the call never returns (`none`: the recursion is still
running when the environment runs out), so it terminates only on success. -/
theorem claimC1_retryWrapper (n : Nat) (r : DeploymentResult) :
    deployContractWithRetry (retryEnv n r) = some (retryTrace n, r) ∧
    countEvent Event.isDeployAttempt (retryTrace n) = n + 1 ∧
    countEvent Event.isLogDeployError (retryTrace n) = n ∧
    countEvent (Event.isPause 10000) (retryTrace n) = n ∧
    countEvent Event.isProbe (retryTrace n) = n + 1 ∧
    proberGatesDeploys false (retryTrace n) = true ∧
    deployContractWithRetry (List.replicate n (okProbeEnv, none)) = none := by
  obtain ⟨h1, h2, h3, h4⟩ := retryTrace_counts n
  exact ⟨deployContractWithRetry_retryEnv n r, h1, h2, h3, h4,
    proberGatesDeploys_retryTrace n, deployContractWithRetry_allFail n⟩

/-- C2: `ensurePXEReady` returns exactly when a response with status text
`"OK"` arrives: after any prefix of not-ready outcomes (thrown transport
errors or responses with any other status text) it returns at the first
`"OK"`, with one probe per prefix outcome plus the final probe and one
5000 ms pause between consecutive probes; on an environment with no `"OK"`
it never returns (and surfaces no error).  In particular two failed probes
followed by `"OK"` give exactly 3 probe attempts and two 5000 ms pauses. -/
theorem claimC2_prober :
    (∀ (pre rest : List ProbeOutcome), (∀ o ∈ pre, o.ready = false) →
        ensurePXEReady (pre ++ ProbeOutcome.status "OK" :: rest) =
          some (proberFailTrace pre.length)) ∧
    (∀ env : List ProbeOutcome, (∀ o ∈ env, o.ready = false) →
        ensurePXEReady env = none) ∧
    (∀ m : Nat, countEvent Event.isProbe (proberFailTrace m) = m + 1 ∧
        countEvent (Event.isPause 5000) (proberFailTrace m) = m) ∧
    ensurePXEReady [ProbeOutcome.thrown, ProbeOutcome.thrown, ProbeOutcome.status "OK"] =
      some (proberFailTrace 2) :=
  ⟨fun pre rest h => ensurePXEReady_firstOK pre h rest,
    ensurePXEReady_neverReady, proberFailTrace_counts, by decide⟩

theorem claimC2_prober_witness :
    ensurePXEReady ([ProbeOutcome.thrown, ProbeOutcome.status "Service Unavailable"] ++
        ProbeOutcome.status "OK" :: []) = some (proberFailTrace 2) ∧
    ensurePXEReady [ProbeOutcome.thrown, ProbeOutcome.status "Service Unavailable"] = none :=
  ⟨claimC2_prober.1 [ProbeOutcome.thrown, ProbeOutcome.status "Service Unavailable"] []
      (by decide),
    claimC2_prober.2.1 [ProbeOutcome.thrown, ProbeOutcome.status "Service Unavailable"]
      (by decide)⟩

/-- C3: when binds on ports `p, p+1, ..., p+k-1` fail with address-in-use,
`startWebSocketServer` ends up listening on `p + k`, the first unbound
port; a bind failure with any other cause makes it log the error and return
normally in the halted state, regardless of what later binds would have
done (so it neither retries nor propagates a catchable error). -/
theorem claimC3_bindRetry (p k : Nat) :
    startWebSocketServer (bindEnvContention k) p =
      some (bindTrace p k, ServerOutcome.listening (p + k)) ∧
    ∀ rest : List BindResult,
      startWebSocketServer (BindResult.otherError :: rest) p =
        some ([Event.bindAttempt p, Event.logUnexpectedBindError], ServerOutcome.halted) :=
  ⟨startWebSocketServer_contention k p, fun _ => rfl⟩

/-- C4: the bridge message handler replies to every inbound message — of any
content, encoding or validity — with the fixed acknowledgement JSON, never
inspecting the message beyond logging it (it is a total function, so it
cannot throw), and the reply does not depend on the message. -/
theorem claimC4_bridgeAck :
    (∀ m : BridgeMessage, handleMessage m = (m.toLogString, ackPayload)) ∧
    (∀ m₁ m₂ : BridgeMessage, (handleMessage m₁).2 = (handleMessage m₂).2) ∧
    (handleMessage (BridgeMessage.text "")).2 = ackPayload ∧
    (handleMessage (BridgeMessage.text "definitely not JSON ]]")).2 = ackPayload ∧
    (handleMessage (BridgeMessage.binary [0, 255, 31])).2 = ackPayload :=
  ⟨fun _ => rfl, fun _ _ => rfl, rfl, rfl, rfl⟩

/-- C5 counterexample: with `PXE_URL` set to `http://example.com:9999`, the
claim would have the Readiness Prober probe
`http://example.com:9999/status`, but the prober fetches the fixed literal
`http://localhost:8080/status` regardless of the environment. -/
theorem claimC5_counterexample :
    proberStatusUrl (some "http://example.com:9999") ≠
      setupSandboxUrl (some "http://example.com:9999") ++ "/status" := by
  decide

/-- C5 (amended): `PXE_URL` overrides the backing-service base URL (default
`http://localhost:8080`) for the RPC endpoint only; the Readiness Prober
issues HTTP GET to the fixed URL `http://localhost:8080/status` — the
default base plus `/status` — regardless of `PXE_URL`, as every probe event
of every `ensurePXEReady` run shows. -/
theorem claimC5_amended :
    (∀ u : String, setupSandboxUrl (some u) = u) ∧
    setupSandboxUrl none = defaultPxeUrl ∧
    (∀ e : Option String, proberStatusUrl e = defaultPxeUrl ++ "/status") ∧
    (∀ (penv : List ProbeOutcome) (tr : List Event), ensurePXEReady penv = some tr →
        ∀ ev ∈ tr, Event.isProbe ev = true →
          ev = Event.probe (defaultPxeUrl ++ "/status")) :=
  ⟨fun _ => rfl, rfl, fun e => by unfold proberStatusUrl; decide, ensurePXEReady_probe_url⟩

theorem claimC5_amended_witness :
    Event.probe "http://localhost:8080/status" = Event.probe (defaultPxeUrl ++ "/status") :=
  claimC5_amended.2.2.2 [ProbeOutcome.status "OK"]
    [Event.probe "http://localhost:8080/status"] (by decide)
    (Event.probe "http://localhost:8080/status") (by decide) (by decide)

/-- C6: in the module tail, with `n` deployer failures before success `r`
and the default port free, the run trace is the retry trace, then the store
of `r` into the process-wide slots, then the bridge bind and listen on the
default port 3002; a probe completes before every deploy attempt, no listen
happens before the store, and no listen happens before a successful deploy. -/
theorem claimC6_orchestration (n : Nat) (r : DeploymentResult) :
    serverMain (retryEnv n r) [BindResult.ok] =
      some (fullTrace n r, ⟨some r.contract, some r.wallet⟩,
        ServerOutcome.listening defaultBridgePort) ∧
    proberGatesDeploys false (fullTrace n r) = true ∧
    listenGated Event.isStore false (fullTrace n r) = true ∧
    listenGated Event.isDeploySuccess false (fullTrace n r) = true ∧
    defaultBridgePort = 3002 := by
  refine ⟨?_, proberGatesDeploys_fullTrace n r, listenGatedStore_fullTrace n r,
    listenGatedDeploy_fullTrace n r, rfl⟩
  simp [serverMain, deployContractWithRetry_retryEnv, startWebSocketServer, fullTrace,
    defaultBridgePort]

/-- C7: the one-time constructor writes 1 to the map slot at key 1 and 700
to the scalar slot, whatever storage it starts from. -/
theorem claimC7_constructor (s : MainStorage) :
    (Main.constructor s).field_in_map 1 = 1 ∧ (Main.constructor s).just_field = 700 := by
  exact ⟨by simp [Main.constructor], rfl⟩

/-- C8: in the successful orchestration flow the process-wide
DeploymentResult slot is written exactly once (the trace holds exactly one
store event, carrying the deployed result), at every prefix of the run the
slot holds nothing or that single result, and after the run it holds it. -/
theorem claimC8_singleStore (n : Nat) (r : DeploymentResult) :
    (fullTrace n r).filter Event.isStore = [Event.store r] ∧
    (∀ pre suf : List Event, fullTrace n r = pre ++ suf →
        slotState pre = none ∨ slotState pre = some r) ∧
    slotState (fullTrace n r) = some r := by
  refine ⟨fullTrace_filter_store n r, ?_, slotState_fullTrace n r⟩
  intro pre suf heq
  simp only [slotState]
  apply storeStep_foldl_none_or r pre none (Or.inl rfl)
  intro e he hstore
  exact fullTrace_store_unique n r e (by rw [heq]; exact List.mem_append_left _ he) hstore

theorem claimC8_singleStore_witness :
    slotState [Event.probe (proberStatusUrl none), Event.deployAttempt true] = none ∨
    slotState [Event.probe (proberStatusUrl none), Event.deployAttempt true] =
      some ⟨5, 7⟩ :=
  (claimC8_singleStore 0 ⟨5, 7⟩).2.1
    [Event.probe (proberStatusUrl none), Event.deployAttempt true]
    [Event.store ⟨5, 7⟩, Event.bindAttempt defaultBridgePort,
      Event.listen defaultBridgePort]
    (by decide)

/-- C9: writing the scalar slot then reading it returns the written value,
and writing the map at a key then reading that key returns the written
value. -/
theorem claimC9_roundTrip :
    (∀ (v : Fp) (s : MainStorage),
        (Main.get_just_field (Main.set_just_field v s)).1 = v) ∧
    (∀ (k v : Fp) (s : MainStorage),
        (Main.read_field_in_map k (Main.set_field_in_map k v s)).1 = v) := by
  refine ⟨fun v s => rfl, fun k v s => ?_⟩
  simp [Main.read_field_in_map, Main.set_field_in_map]

/-- C10: `set_just_field` leaves every map slot unchanged; `set_field_in_map`
leaves the scalar slot and every other key of the map unchanged; the two
view functions leave the whole storage unchanged. -/
theorem claimC10_frame :
    (∀ (v : Fp) (s : MainStorage) (k : Fp),
        (Main.set_just_field v s).field_in_map k = s.field_in_map k) ∧
    (∀ (k v : Fp) (s : MainStorage),
        (Main.set_field_in_map k v s).just_field = s.just_field) ∧
    (∀ (k v q : Fp) (s : MainStorage), q ≠ k →
        (Main.set_field_in_map k v s).field_in_map q = s.field_in_map q) ∧
    (∀ s : MainStorage, (Main.get_just_field s).2 = s) ∧
    (∀ (k : Fp) (s : MainStorage), (Main.read_field_in_map k s).2 = s) := by
  refine ⟨fun _ _ _ => rfl, fun _ _ _ => rfl, fun k v q s hq => ?_,
    fun _ => rfl, fun _ _ => rfl⟩
  simp [Main.set_field_in_map, Function.update_noteq hq]

theorem claimC10_frame_witness :
    (Main.set_field_in_map 1 9 ⟨fun _ => 0, 0⟩).field_in_map 2 =
      (⟨fun _ => 0, 0⟩ : MainStorage).field_in_map 2 :=
  claimC10_frame.2.2.1 1 9 2 ⟨fun _ => 0, 0⟩ (by decide)
